import Mathlib

/-!
Verification development for the PromptLink backend (`src/main.py`).

The development shallowly embeds the Flask orchestrator: the agent registry
`AGENTS`, the response extractor `extract_message_content`, the provider
adapter `call_openrouter_api` (with its request-body builder), and the
`/api/chat` handler `chat`.  Upstream HTTP effects and the wall clock are
modelled by an explicit `World` oracle; Python dict updates are modelled by
an association list with Python's insertion-order update semantics; real
numbers (`time.time()` values) are modelled by rationals.
-/

namespace PromptLink

/-- Parsed JSON values.  Python dicts are association lists in insertion
order (Python 3.7+ preserves it); numbers (ints and floats) are rationals. -/
inductive Json where
  | str : String → Json
  | num : ℚ → Json
  | bool : Bool → Json
  | null : Json
  | arr : List Json → Json
  | obj : List (String × Json) → Json
deriving Repr

/-- Python truthiness of a JSON value (`bool(v)`). -/
def Json.truthy : Json → Bool
  | .str s => s ≠ ""
  | .num q => q ≠ 0
  | .bool b => b
  | .null => false
  | .arr l => !l.isEmpty
  | .obj l => !l.isEmpty

/-- Python dict lookup `d[key]` / `key in d` on a string-keyed dict,
modelled on the association list (keys are unique in a Python dict, so
first match is the match). -/
def pyGet {α : Type} : List (String × α) → String → Option α
  | [], _ => none
  | (k, v) :: rest, key => if k = key then some v else pyGet rest key

/-- Replace the value stored at `key` wherever it occurs, keeping every
position (dict keys are unique, so at most one entry is replaced). -/
def updateKey {α : Type} : List (String × α) → String → α → List (String × α)
  | [], _, _ => []
  | (k, w) :: rest, key, v =>
    if k = key then (key, v) :: updateKey rest key v else (k, w) :: updateKey rest key v

/-- Python dict assignment `d[key] = v`: overwrites in place when the key
exists (keeping its position), else appends at the end. -/
def pyInsert {α : Type} (d : List (String × α)) (key : String) (v : α) : List (String × α) :=
  if (pyGet d key).isSome then updateKey d key v
  else d ++ [(key, v)]

/-- The key sequence of a dict. -/
def keysOf {α : Type} (d : List (String × α)) : List String := d.map Prod.fst

/-- Python exceptions raised by the extractor, kept structured so that the
diagnostic payload they carry is visible to theorems.  `unknownFormat` is
the `Exception(f"[ERROR] Unknown format from agent ...")` raised at the end
of `extract_message_content` (the spec's `NoExtractableContent`). -/
inductive PyExc where
  | keyError : String → PyExc
  | typeError : PyExc
  | indexError : PyExc
  | unknownFormat : String → List (String × Json) → PyExc

/-- Python subscript `x[0]` with the integer 0, as used on
`result["choices"][0]`: first element of a list, first character of a
string, `KeyError` on a (string-keyed) dict, `TypeError` otherwise. -/
def pyIndex0 : Json → Except PyExc Json
  | .arr [] => .error .indexError
  | .arr (v :: _) => .ok v
  | .str s =>
    match s.data with
    | [] => .error .indexError
    | c :: _ => .ok (.str (String.mk [c]))
  | .obj _ => .error (.keyError "0")
  | _ => .error .typeError

/-- Python subscript `x[key]` with a string key: dict lookup raising
`KeyError` when absent, `TypeError` on any non-dict value. -/
def pySubscript (j : Json) (key : String) : Except PyExc Json :=
  match j with
  | .obj l =>
    match pyGet l key with
    | some v => .ok v
    | none => .error (.keyError key)
  | _ => .error .typeError

/-- First top-level string-valued field of a dict, in insertion order
(the first fallback loop of `extract_message_content`). -/
def firstStrField : List (String × Json) → Option Json
  | [] => none
  | (_, .str s) :: _ => some (.str s)
  | _ :: rest => firstStrField rest

/-- First string-valued field found one level deep inside a nested dict
value, scanning dict values in insertion order (the second fallback loop
of `extract_message_content`). -/
def firstNestedStrField : List (String × Json) → Option Json
  | [] => none
  | (_, .obj m) :: rest =>
    match firstStrField m with
    | some v => some v
    | none => firstNestedStrField rest
  | _ :: rest => firstNestedStrField rest

/-- The `elif`/fallback chain of `extract_message_content` after the
`choices` branch: keys `output`, `completion`, `text`, `answer`, `result`
in order, then the two fallback scans, else the final raise. -/
def extractFallback (agent_name : String) (result : List (String × Json)) : Except PyExc Json :=
  match pyGet result "output" with
  | some v => .ok v
  | none =>
  match pyGet result "completion" with
  | some v => .ok v
  | none =>
  match pyGet result "text" with
  | some v => .ok v
  | none =>
  match pyGet result "answer" with
  | some v => .ok v
  | none =>
  match pyGet result "result" with
  | some v => .ok v
  | none =>
  match firstStrField result with
  | some v => .ok v
  | none =>
  match firstNestedStrField result with
  | some v => .ok v
  | none => .error (.unknownFormat agent_name result)

/-- `extract_message_content(agent_name, result)` from `src/main.py`
(lines 48-75): when `"choices" in result and result["choices"]` it commits
to `result["choices"][0]["message"]["content"]`, re-raising any failure on
that path; otherwise it walks the `elif`/fallback chain.  The `try/except`
wrapper only logs and re-raises, so it is the identity on outcomes. -/
def extract_message_content (agent_name : String) (result : List (String × Json)) :
    Except PyExc Json :=
  match pyGet result "choices" with
  | some c =>
    if c.truthy then
      match pyIndex0 c with
      | .error e => .error e
      | .ok x =>
        match pySubscript x "message" with
        | .error e => .error e
        | .ok m => pySubscript m "content"
    else extractFallback agent_name result
  | none => extractFallback agent_name result

mutual

/-- Rendering of a JSON value the way Python's `str()`/f-string renders the
parsed object (dict/list repr); stands in for the `{result}` interpolation
in the diagnostic exception message.  Apostrophes are written `\x27`. -/
def pyRepr : Json → String
  | .str s => "\x27" ++ s ++ "\x27"
  | .num q => if q.den = 1 then toString q.num else toString q
  | .bool b => if b then "True" else "False"
  | .null => "None"
  | .arr l => "[" ++ pyReprArr l ++ "]"
  | .obj l => "\x7b" ++ pyReprObj l ++ "\x7d"

/-- Comma-separated rendering of list elements. -/
def pyReprArr : List Json → String
  | [] => ""
  | [x] => pyRepr x
  | x :: xs => pyRepr x ++ ", " ++ pyReprArr xs

/-- Comma-separated rendering of dict entries. -/
def pyReprObj : List (String × Json) → String
  | [] => ""
  | [(k, v)] => "\x27" ++ k ++ "\x27: " ++ pyRepr v
  | (k, v) :: xs => "\x27" ++ k ++ "\x27: " ++ pyRepr v ++ ", " ++ pyReprObj xs

end

/-- Python's `str(e)` for the exceptions the extractor can raise; for the
final unknown-format raise this is the message built at line 72 of
`src/main.py`, which interpolates the agent name and the full raw body. -/
def excStr : PyExc → String
  | .keyError k => "\x27" ++ k ++ "\x27"
  | .typeError => "TypeError"
  | .indexError => "list index out of range"
  | .unknownFormat name result =>
    "[ERROR] Unknown format from agent \x27" ++ name ++ "\x27: " ++ pyRepr (.obj result)

/-- One entry of the `AGENTS` registry (`src/main.py` lines 23-46). -/
structure AgentConfig where
  id : String
  name : String
  model : String
  provider : String
  capabilities : List String
  color : String
  status : String
  icon : String

/-- The static agent registry `AGENTS` from `src/main.py` lines 23-46. -/
def AGENTS : List (String × AgentConfig) :=
  [ ("deepseek", ⟨"deepseek", "DeepSeek R1", "deepseek/deepseek-r1", "openrouter",
      ["code-generation"], "blue", "active", "🤖"⟩),
    ("chatgpt", ⟨"chatgpt", "OpenAI GPT-4 Turbo", "openai/gpt-4-turbo", "openrouter",
      ["conversation"], "green", "active", "💬"⟩),
    ("qwen", ⟨"qwen", "Qwen 2.5 Coder", "qwen/qwen-2.5-coder", "openrouter",
      ["coding"], "purple", "active", "🧑‍💻"⟩),
    ("llama", ⟨"llama", "Meta Llama 3.3", "meta-llama/llama-3-8b-instruct", "openrouter",
      ["text-generation"], "orange", "active", "🦙"⟩),
    ("mistral", ⟨"mistral", "Mistral Large", "mistralai/mistral-large-2407", "openrouter",
      ["summarization"], "red", "active", "💨"⟩),
    ("gpt4o", ⟨"gpt4o", "GPT-4o", "openai/gpt-4o", "openrouter",
      ["conversation"], "teal", "active", "💎"⟩),
    ("grok", ⟨"grok", "Grok Beta", "xai/grok-1.5-llama3-8b", "openrouter",
      ["reasoning"], "brown", "active", "🦾"⟩),
    ("claude", ⟨"claude", "Claude Opus", "anthropic/claude-3-opus", "openrouter",
      ["analysis"], "pink", "active", "🧠"⟩),
    ("gemini", ⟨"gemini", "Gemini 2.0 Flash", "google/gemini-1.5-flash", "openrouter",
      ["fast-gen"], "cyan", "active", "⚡"⟩),
    ("deepseekfree", ⟨"deepseekfree", "DeepSeek Free", "deepseek/deepseek-chat", "openrouter",
      ["basic"], "lightblue", "active", "🔍"⟩),
    ("perplexity", ⟨"perplexity", "Perplexity Pro", "perplexity/perplexity-llm", "openrouter",
      ["web-search"], "violet", "active", "🔎"⟩) ]

/-- Whether `needle` starts `hay` (on character lists). -/
def startsChars : List Char → List Char → Bool
  | [], _ => true
  | _ :: _, [] => false
  | a :: as, b :: bs => a == b && startsChars as bs

/-- Whether `needle` occurs somewhere in `hay` (on character lists). -/
def containsChars (needle : List Char) : List Char → Bool
  | [] => startsChars needle []
  | b :: bs => startsChars needle (b :: bs) || containsChars needle bs

/-- Python's substring test `needle in hay` on strings. -/
def pyInStr (needle hay : String) : Bool := containsChars needle.data hay.data

/-- The upstream request body built by `call_openrouter_api`
(`src/main.py` lines 113-131): a Gemini-style content-generation body when
the model identifier contains `"gemini"`, otherwise a chat-completions
body with `max_tokens` 2000 and `temperature` 0.7. -/
def buildRequestBody (message model : String) : Json :=
  if pyInStr "gemini" model then
    .obj [("contents", .arr [.obj [("parts", .arr [.obj [("text", .str message)]])]])]
  else
    .obj [("model", .str model),
          ("messages", .arr [.obj [("role", .str "user"), ("content", .str message)]]),
          ("max_tokens", .num 2000),
          ("temperature", .num (7 / 10))]

/-- Outcome of the single `requests.post` an adapter call performs: an HTTP
response with a status code and a body (`.error` when `response.json()`
raising is modelled, carrying `str(parse_err)`; bodies are modelled as JSON
objects, the shape every claim quantifies over), or a transport-level
exception carrying `str(e)`. -/
inductive UpstreamOutcome where
  | response (statusCode : Nat) (body : Except String (List (String × Json)))
  | transportExc (msg : String)

/-- The dict `call_openrouter_api` returns: always `success=True`, a
message payload and a token count. -/
structure ApiResult where
  success : Bool
  message : Json
  tokens : Json

/-- The degraded result built in the two failure arms of
`call_openrouter_api` (lines 158 and 161): `success=True`, a bracketed
text embedding agent name, model and failure detail, zero tokens. -/
def degradedResult (agent_name model detail : String) : ApiResult :=
  ⟨true, .str ("[" ++ agent_name ++ " on " ++ model ++ " " ++ detail ++ "]"), .num 0⟩

/-- `result.get("usage", {}).get("total_tokens", 0)` (line 154), raising
`AttributeError` when `usage` is present but not a dict. -/
def getTokensE (result : List (String × Json)) : Except String Json :=
  match pyGet result "usage" with
  | none => .ok (.num 0)
  | some (.obj u) => .ok ((pyGet u "total_tokens").getD (.num 0))
  | some _ => .error "AttributeError"

/-- The response-handling part of `call_openrouter_api` (`src/main.py`
lines 135-161): only a 200 status enters the parse/extract path; a non-200
status yields the degraded HTTP-error text; any exception (JSON parse,
extraction, usage access, transport) yields the degraded exception text.
Every failure path is converted into a `success=True` result. -/
def handleUpstream (model agent_name : String) : UpstreamOutcome → ApiResult
  | .transportExc e => degradedResult agent_name model ("exception: " ++ e)
  | .response statusCode body =>
    if statusCode = 200 then
      match body with
      | .error parseErr => degradedResult agent_name model ("exception: " ++ parseErr)
      | .ok result =>
        match extract_message_content agent_name result with
        | .error exc => degradedResult agent_name model ("exception: " ++ excStr exc)
        | .ok content =>
          match getTokensE result with
          | .error e => degradedResult agent_name model ("exception: " ++ e)
          | .ok tok => ⟨true, content, tok⟩
    else degradedResult agent_name model ("got HTTP error: " ++ toString statusCode)

/-- `call_openrouter_api(message, model, agent_name)` from `src/main.py`
lines 105-161, as a pure function of the upstream outcome.  It returns the
request body it posts together with the result dict. -/
def call_openrouter_api (message model agent_name : String) (up : UpstreamOutcome) :
    Json × ApiResult :=
  (buildRequestBody message model, handleUpstream model agent_name up)

/-- Oracle for the effects one request observes: the outcome of the k-th
upstream POST, the value of the k-th `time.time()` call, and the
`datetime.now().isoformat()` string. -/
structure World where
  upstream : Nat → UpstreamOutcome
  clock : Nat → ℚ
  nowIso : String

/-- The typed fields of the parsed request body the handler reads:
`data.get('message', '')` and `data.get('agents', [])`. -/
structure RequestData where
  message : Option String
  agents : Option (List String)

/-- State threaded through the per-agent loop of `chat`: how many upstream
calls were made, how many `time.time()` calls happened, the `responses`
dict, and the request bodies posted upstream (the call trace). -/
structure LoopState where
  calls : Nat
  ticks : Nat
  responses : List (String × Json)
  sent : List Json

/-- Python whitespace as stripped by `str.strip()`. -/
def isPyWs (c : Char) : Bool :=
  (c == ' ') || (c == '\t') || (c == '\n') || (c == '\r') || (c == '\x0b') || (c == '\x0c')

/-- Drop leading whitespace characters. -/
def dropLeadWs : List Char → List Char
  | [] => []
  | c :: cs => if isPyWs c then dropLeadWs cs else c :: cs

/-- Python `s.strip()`: surrounding whitespace removed. -/
def pyStrip (s : String) : String :=
  String.mk ((dropLeadWs (dropLeadWs s.data.reverse).reverse))

/-- The error outcome recorded for an unknown agent id
(`src/main.py` lines 185-189). -/
def errOutcome (agent_id : String) (ts : ℚ) : Json :=
  .obj [("status", .str "error"),
        ("error", .str ("Unknown agent: " ++ agent_id)),
        ("timestamp", .num ts)]

/-- The outcome recorded for a known agent (`src/main.py` lines 196-202):
always `status="success"`. -/
def succOutcome (cfg : AgentConfig) (resp : Json) (ts rt : ℚ) (tok : Json) : Json :=
  .obj [("status", .str "success"),
        ("response", resp),
        ("agent", .str cfg.name),
        ("model", .str cfg.model),
        ("timestamp", .num ts),
        ("response_time", .num rt),
        ("tokens_used", tok)]

/-- `round(x, 2)`, on rationals. -/
def round2 (q : ℚ) : ℚ := (round (100 * q) : ℤ) / 100

/-- The per-agent loop of `chat` (`src/main.py` lines 184-203): unknown
ids get an error outcome and one `time.time()` tick; known ids trigger one
adapter call, three ticks, and a success outcome whose response time is
the rounded difference of two clock reads. -/
def chatLoop (reg : List (String × AgentConfig)) (w : World) (message : String) :
    List String → LoopState → LoopState
  | [], s => s
  | agent_id :: rest, s =>
    match pyGet reg agent_id with
    | none =>
      chatLoop reg w message rest
        { s with
          ticks := s.ticks + 1,
          responses := pyInsert s.responses agent_id (errOutcome agent_id (w.clock s.ticks)) }
    | some cfg =>
      let sentResult := call_openrouter_api message cfg.model cfg.name (w.upstream s.calls)
      chatLoop reg w message rest
        { calls := s.calls + 1,
          ticks := s.ticks + 3,
          responses := pyInsert s.responses agent_id
            (succOutcome cfg sentResult.2.message (w.clock (s.ticks + 2))
              (round2 (w.clock (s.ticks + 1) - w.clock s.ticks)) sentResult.2.tokens),
          sent := s.sent ++ [sentResult.1] }

/-- The structural error body `jsonify({"success": False, "error": msg})`. -/
def errBody (msg : String) : Json :=
  .obj [("success", .bool false), ("error", .str msg)]

/-- The aggregated envelope of `chat` (`src/main.py` lines 206-217). -/
def mkEnvelope (rs : List (String × Json)) (agent_ids : List String)
    (total sid : ℚ) (nowIso : String) : Json :=
  .obj [("success", .bool true),
        ("responses", .obj rs),
        ("metadata", .obj
          [("total_agents", .num agent_ids.length),
           ("successful_responses", .num rs.length),
           ("total_time", .num (round2 total)),
           ("average_response_time",
             if agent_ids = [] then .num 0
             else .num (round2 (total / agent_ids.length))),
           ("orchestration_time", .str nowIso),
           ("session_id", .str ("session_" ++ toString (⌊sid⌋ : ℤ)))])]

/-- An HTTP reply of the handler: status code, JSON body, and the trace of
request bodies posted upstream while producing it. -/
structure HttpReply where
  status : Nat
  body : Json
  sent : List Json

/-- The successful-path tail of `chat`: `start_time` is clock tick 0, the
loop starts at tick 1, `total_time` is the final clock read minus
`start_time`, and the session id floors one further clock read. -/
def chatSuccess (reg : List (String × AgentConfig)) (w : World)
    (message : String) (agent_ids : List String) : HttpReply :=
  let s := chatLoop reg w message agent_ids ⟨0, 1, [], []⟩
  ⟨200,
   mkEnvelope s.responses agent_ids (w.clock s.ticks - w.clock 0)
     (w.clock (s.ticks + 1)) w.nowIso,
   s.sent⟩

/-- The `/api/chat` handler `chat` from `src/main.py` lines 163-220, over
a request that did or did not carry a JSON body.  The registry is threaded
through explicitly so that its preservation is expressible: the handler
only ever reads it. -/
def chat (reg : List (String × AgentConfig)) (w : World) (data : Option RequestData) :
    List (String × AgentConfig) × HttpReply :=
  match data with
  | none => (reg, ⟨400, errBody "No JSON data provided", []⟩)
  | some d =>
    if pyStrip (d.message.getD "") = "" then
      (reg, ⟨400, errBody "Message is required", []⟩)
    else if d.agents.getD [] = [] then
      (reg, ⟨400, errBody "At least one agent must be specified", []⟩)
    else
      (reg, chatSuccess reg w (pyStrip (d.message.getD "")) (d.agents.getD []))

/-- Field access on a JSON object value. -/
def Json.look : Json → String → Option Json
  | .obj l, k => pyGet l k
  | _, _ => none

/-- Modelled from the claim's wording: the `choices[0].message.content`
path, as a pattern that either matches in full or does not match. -/
def specChoicesPath (result : List (String × Json)) : Option Json :=
  match pyGet result "choices" with
  | some (.arr (Json.obj m :: _)) =>
    match pyGet m "message" with
    | some (.obj mm) => pyGet mm "content"
    | _ => none
  | _ => none

/-- Modelled from the claim's wording (C5): first match in the documented
order — the `choices[0].message.content` path, then the first present key
among `output`, `completion`, `text`, `answer`, `result`, then the first
top-level string field, then the first string field one level deep,
otherwise no extractable content. -/
def specOrderedExtract (result : List (String × Json)) : Option Json :=
  match specChoicesPath result with
  | some v => some v
  | none =>
  match pyGet result "output" with
  | some v => some v
  | none =>
  match pyGet result "completion" with
  | some v => some v
  | none =>
  match pyGet result "text" with
  | some v => some v
  | none =>
  match pyGet result "answer" with
  | some v => some v
  | none =>
  match pyGet result "result" with
  | some v => some v
  | none =>
  match firstStrField result with
  | some v => some v
  | none => firstNestedStrField result

/-- The amended extraction contract: identical to the documented order
except that a present, truthy `choices` commits the extractor to the
`choices[0].message.content` subscript chain — when that chain fails the
extractor fails rather than falling through to the remaining patterns. -/
def specAmendedExtract (result : List (String × Json)) : Option Json :=
  match pyGet result "choices" with
  | some c =>
    if c.truthy then
      match pyIndex0 c with
      | .error _ => none
      | .ok x =>
        match pySubscript x "message" with
        | .error _ => none
        | .ok m => (pySubscript m "content").toOption
    else specOrderedExtract result
  | none => specOrderedExtract result

/-- Test world used by closed instances: every upstream call yields a
200 response with an `output` field, the clock ticks 0,1,2,…. -/
def Wex : World :=
  ⟨fun _ => .response 200 (.ok [("output", .str "ok")]), fun k => (k : ℚ), "2026-01-01T00:00:00"⟩

/-- Test world whose upstream body has no extractable content. -/
def Wfoo : World :=
  ⟨fun _ => .response 200 (.ok [("foo", .num 42)]), fun k => (k : ℚ), "2026-01-01T00:00:00"⟩

/-- Test request: one known agent, one unknown agent. -/
def dEx : RequestData := ⟨some "hi", some ["claude", "nosuch"]⟩

/-- The registry entry of the `claude` agent. -/
def claudeCfg : AgentConfig :=
  ⟨"claude", "Claude Opus", "anthropic/claude-3-opus", "openrouter",
    ["analysis"], "pink", "active", "🧠"⟩

theorem pyGet_updateKey {α : Type} (d : List (String × α)) (key : String) (v : α) :
    pyGet (updateKey d key v) key =
      if (pyGet d key).isSome then some v else none := by
  induction d with
  | nil => simp [pyGet, updateKey]
  | cons p rest ih =>
    obtain ⟨k, w⟩ := p
    by_cases h : k = key
    · subst h; simp [pyGet, updateKey]
    · simp [pyGet, updateKey, h, ih]

theorem pyGet_updateKey_ne {α : Type} (d : List (String × α)) (key x : String) (v : α)
    (h : x ≠ key) :
    pyGet (updateKey d key v) x = pyGet d x := by
  induction d with
  | nil => rfl
  | cons p rest ih =>
    obtain ⟨k, w⟩ := p
    by_cases hk : k = key
    · subst hk; simp [pyGet, updateKey, Ne.symm h, ih]
    · simp [pyGet, updateKey, hk, ih]

theorem pyGet_append {α : Type} (d e : List (String × α)) (key : String) :
    pyGet (d ++ e) key = (pyGet d key <|> pyGet e key) := by
  induction d with
  | nil => rfl
  | cons p rest ih =>
    obtain ⟨k, w⟩ := p
    by_cases h : k = key <;> simp [pyGet, h, ih]

theorem pyGet_pyInsert_self {α : Type} (d : List (String × α)) (key : String) (v : α) :
    pyGet (pyInsert d key v) key = some v := by
  unfold pyInsert
  by_cases h : (pyGet d key).isSome
  · rw [if_pos h, pyGet_updateKey, if_pos h]
  · rw [if_neg h, pyGet_append, Option.not_isSome_iff_eq_none.mp h]
    simp [pyGet]

theorem pyGet_pyInsert_ne {α : Type} (d : List (String × α)) (key x : String) (v : α)
    (h : x ≠ key) :
    pyGet (pyInsert d key v) x = pyGet d x := by
  unfold pyInsert
  by_cases hs : (pyGet d key).isSome
  · rw [if_pos hs]; exact pyGet_updateKey_ne d key x v h
  · rw [if_neg hs, pyGet_append]
    cases hd : pyGet d x with
    | some w => rfl
    | none => simp [pyGet, Ne.symm h]

theorem keysOf_cons {α : Type} (k : String) (w : α) (rest : List (String × α)) :
    keysOf ((k, w) :: rest) = k :: keysOf rest := rfl

theorem keysOf_updateKey {α : Type} (d : List (String × α)) (key : String) (v : α) :
    keysOf (updateKey d key v) = keysOf d := by
  induction d with
  | nil => rfl
  | cons p rest ih =>
    obtain ⟨k, w⟩ := p
    by_cases h : k = key
    · subst h; simp [updateKey, keysOf_cons, ih]
    · simp [updateKey, h, keysOf_cons, ih]

theorem mem_keysOf_iff_isSome {α : Type} (d : List (String × α)) (key : String) :
    key ∈ keysOf d ↔ (pyGet d key).isSome := by
  induction d with
  | nil => simp [keysOf, pyGet]
  | cons p rest ih =>
    obtain ⟨k, w⟩ := p
    rw [keysOf_cons]
    by_cases h : k = key
    · subst h; simp [pyGet]
    · simp only [List.mem_cons, pyGet]
      rw [if_neg h]
      simp only [ih]
      constructor
      · rintro (rfl | hm)
        · exact absurd rfl h
        · exact hm
      · exact Or.inr

theorem keysOf_pyInsert {α : Type} (d : List (String × α)) (key : String) (v : α) :
    keysOf (pyInsert d key v) =
      if key ∈ keysOf d then keysOf d else keysOf d ++ [key] := by
  unfold pyInsert
  by_cases h : (pyGet d key).isSome
  · rw [if_pos h, keysOf_updateKey, if_pos ((mem_keysOf_iff_isSome d key).mpr h)]
  · rw [if_neg h, if_neg (fun hm => h ((mem_keysOf_iff_isSome d key).mp hm))]
    simp [keysOf]

theorem mem_keysOf_pyInsert {α : Type} (d : List (String × α)) (key x : String) (v : α) :
    x ∈ keysOf (pyInsert d key v) ↔ x ∈ keysOf d ∨ x = key := by
  rw [keysOf_pyInsert]
  by_cases h : key ∈ keysOf d
  · rw [if_pos h]
    constructor
    · exact Or.inl
    · rintro (hx | rfl)
      · exact hx
      · exact h
  · rw [if_neg h]; simp

theorem nodup_keysOf_pyInsert {α : Type} (d : List (String × α)) (key : String) (v : α)
    (h : (keysOf d).Nodup) : (keysOf (pyInsert d key v)).Nodup := by
  rw [keysOf_pyInsert]
  by_cases hm : key ∈ keysOf d
  · rw [if_pos hm]; exact h
  · rw [if_neg hm]; simp [List.nodup_append, h, hm]

theorem length_updateKey {α : Type} (d : List (String × α)) (key : String) (v : α) :
    (updateKey d key v).length = d.length := by
  induction d with
  | nil => rfl
  | cons p rest ih =>
    obtain ⟨k, w⟩ := p
    by_cases h : k = key <;> simp [updateKey, h, ih]

theorem length_pyInsert {α : Type} (d : List (String × α)) (key : String) (v : α) :
    (pyInsert d key v).length =
      if key ∈ keysOf d then d.length else d.length + 1 := by
  unfold pyInsert
  by_cases h : (pyGet d key).isSome
  · rw [if_pos h, if_pos ((mem_keysOf_iff_isSome d key).mpr h)]
    exact length_updateKey d key v
  · rw [if_neg h, if_neg (fun hm => h ((mem_keysOf_iff_isSome d key).mp hm))]; simp

theorem round2_close (x : ℚ) : |round2 x - x| ≤ 1 / 200 := by
  have h := abs_sub_round (100 * x)
  rw [abs_le] at h ⊢
  unfold round2
  constructor <;> [linarith [h.1, h.2]; linarith [h.1, h.2]]

theorem round2_div_close (x : ℚ) (n : ℕ) (hn : 1 ≤ n) :
    |round2 (x / n) - round2 x / n| ≤ 1 / 100 := by
  have hn' : (1 : ℚ) ≤ n := by exact_mod_cast hn
  have hnpos : (0 : ℚ) < n := by linarith
  have h1 := round2_close (x / n)
  have h3 : |x / n - round2 x / n| ≤ 1 / 200 := by
    rw [div_sub_div_same, abs_div, abs_of_pos hnpos]
    calc |x - round2 x| / n ≤ (1 / 200) / n := by
          have : |x - round2 x| ≤ 1 / 200 := by rw [abs_sub_comm]; exact round2_close x
          exact (div_le_div_iff_of_pos_right hnpos).mpr this
      _ ≤ 1 / 200 := div_le_self (by norm_num) hn'
  calc |round2 (x / n) - round2 x / n|
      ≤ |round2 (x / n) - x / n| + |x / n - round2 x / n| := abs_sub_le _ _ _
    _ ≤ 1 / 200 + 1 / 200 := add_le_add h1 h3
    _ = 1 / 100 := by norm_num

theorem strAppend_assoc (a b c : String) : a ++ b ++ c = a ++ (b ++ c) := by
  cases a; cases b; cases c
  exact congrArg String.mk (List.append_assoc _ _ _)

theorem chatLoop_mem_keys (reg : List (String × AgentConfig)) (w : World) (msg : String)
    (ids : List String) :
    ∀ (s : LoopState) (x : String),
      x ∈ keysOf (chatLoop reg w msg ids s).responses ↔
        x ∈ keysOf s.responses ∨ x ∈ ids := by
  induction ids with
  | nil => intro s x; simp [chatLoop]
  | cons id rest ih =>
    intro s x
    cases hc : pyGet reg id with
    | none =>
      simp only [chatLoop, hc]
      rw [ih]
      simp only [mem_keysOf_pyInsert, List.mem_cons]
      tauto
    | some cfg =>
      simp only [chatLoop, hc]
      rw [ih]
      simp only [mem_keysOf_pyInsert, List.mem_cons]
      tauto

theorem chatLoop_keys_nodup (reg : List (String × AgentConfig)) (w : World) (msg : String)
    (ids : List String) :
    ∀ s : LoopState, (keysOf s.responses).Nodup →
      (keysOf (chatLoop reg w msg ids s).responses).Nodup := by
  induction ids with
  | nil => intro s h; simpa [chatLoop] using h
  | cons id rest ih =>
    intro s h
    cases hc : pyGet reg id with
    | none =>
      simp only [chatLoop, hc]
      exact ih _ (nodup_keysOf_pyInsert _ _ _ h)
    | some cfg =>
      simp only [chatLoop, hc]
      exact ih _ (nodup_keysOf_pyInsert _ _ _ h)

theorem chatLoop_length_nodup (reg : List (String × AgentConfig)) (w : World) (msg : String)
    (ids : List String) :
    ∀ s : LoopState, ids.Nodup → (∀ x ∈ ids, x ∉ keysOf s.responses) →
      (chatLoop reg w msg ids s).responses.length = s.responses.length + ids.length := by
  induction ids with
  | nil => intro s _ _; simp [chatLoop]
  | cons id rest ih =>
    intro s hnd hdisj
    have hid : id ∉ keysOf s.responses := hdisj id (List.mem_cons_self id rest)
    have hlen : ∀ v : Json, (pyInsert s.responses id v).length = s.responses.length + 1 := by
      intro v; rw [length_pyInsert, if_neg hid]
    have hrest : ∀ v : Json, ∀ x ∈ rest, x ∉ keysOf (pyInsert s.responses id v) := by
      intro v x hx hmem
      rcases (mem_keysOf_pyInsert _ _ _ _).mp hmem with hs | rfl
      · exact hdisj x (List.mem_cons_of_mem id hx) hs
      · exact (List.nodup_cons.mp hnd).1 hx
    cases hc : pyGet reg id with
    | none =>
      simp only [chatLoop, hc]
      rw [ih _ (List.nodup_cons.mp hnd).2 (hrest _)]
      simp only [hlen, List.length_cons]
      omega
    | some cfg =>
      simp only [chatLoop, hc]
      rw [ih _ (List.nodup_cons.mp hnd).2 (hrest _)]
      simp only [hlen, List.length_cons]
      omega

theorem chatLoop_length_le (reg : List (String × AgentConfig)) (w : World) (msg : String)
    (ids : List String) :
    ∀ s : LoopState,
      (chatLoop reg w msg ids s).responses.length ≤ s.responses.length + ids.length := by
  induction ids with
  | nil => intro s; simp [chatLoop]
  | cons id rest ih =>
    intro s
    have hlen : ∀ v : Json, (pyInsert s.responses id v).length ≤ s.responses.length + 1 := by
      intro v
      rw [length_pyInsert]
      by_cases h : id ∈ keysOf s.responses
      · rw [if_pos h]; omega
      · rw [if_neg h]
    cases hc : pyGet reg id with
    | none =>
      simp only [chatLoop, hc]
      calc (chatLoop reg w msg rest _).responses.length
          ≤ (pyInsert s.responses id (errOutcome id (w.clock s.ticks))).length + rest.length :=
            ih _
        _ ≤ s.responses.length + 1 + rest.length := by have := hlen (errOutcome id (w.clock s.ticks)); omega
        _ = s.responses.length + (id :: rest).length := by simp [List.length_cons]; omega
    | some cfg =>
      simp only [chatLoop, hc]
      calc (chatLoop reg w msg rest _).responses.length
          ≤ (pyInsert s.responses id _).length + rest.length := ih _
        _ ≤ s.responses.length + 1 + rest.length := by
            have := hlen (succOutcome cfg
              (call_openrouter_api msg cfg.model cfg.name (w.upstream s.calls)).2.message
              (w.clock (s.ticks + 2)) (round2 (w.clock (s.ticks + 1) - w.clock s.ticks))
              (call_openrouter_api msg cfg.model cfg.name (w.upstream s.calls)).2.tokens)
            omega
        _ = s.responses.length + (id :: rest).length := by simp [List.length_cons]; omega

theorem chatLoop_lookup_unknown (reg : List (String × AgentConfig)) (w : World) (msg : String)
    (i : String) (hreg : pyGet reg i = none) (ids : List String) :
    ∀ s : LoopState,
      (i ∈ ids ∨ ∃ ts, pyGet s.responses i = some (errOutcome i ts)) →
      ∃ ts, pyGet (chatLoop reg w msg ids s).responses i = some (errOutcome i ts) := by
  induction ids with
  | nil =>
    intro s h
    rcases h with h | h
    · exact absurd h (List.not_mem_nil i)
    · simpa [chatLoop] using h
  | cons id rest ih =>
    intro s h
    cases hc : pyGet reg id with
    | none =>
      simp only [chatLoop, hc]
      by_cases hid : id = i
      · subst hid
        refine ih _ (Or.inr ⟨w.clock s.ticks, ?_⟩)
        exact pyGet_pyInsert_self _ _ _
      · refine ih _ ?_
        rcases h with hmem | ⟨ts, hts⟩
        · rcases List.mem_cons.mp hmem with rfl | hmem
          · exact absurd rfl hid
          · exact Or.inl hmem
        · refine Or.inr ⟨ts, ?_⟩
          rw [pyGet_pyInsert_ne _ _ _ _ (fun he => hid he.symm)]
          exact hts
    | some cfg =>
      have hid : id ≠ i := fun he => by rw [he, hreg] at hc; cases hc
      simp only [chatLoop, hc]
      refine ih _ ?_
      rcases h with hmem | ⟨ts, hts⟩
      · rcases List.mem_cons.mp hmem with rfl | hmem
        · exact absurd rfl hid
        · exact Or.inl hmem
      · refine Or.inr ⟨ts, ?_⟩
        rw [pyGet_pyInsert_ne _ _ _ _ (fun he => hid he.symm)]
        exact hts

theorem chatLoop_lookup_known (reg : List (String × AgentConfig)) (w : World) (msg : String)
    (i : String) (cfg : AgentConfig) (hreg : pyGet reg i = some cfg) (ids : List String) :
    ∀ s : LoopState,
      (i ∈ ids ∨ ∃ r ts rt tk, pyGet s.responses i = some (succOutcome cfg r ts rt tk)) →
      ∃ r ts rt tk,
        pyGet (chatLoop reg w msg ids s).responses i = some (succOutcome cfg r ts rt tk) := by
  induction ids with
  | nil =>
    intro s h
    rcases h with h | h
    · exact absurd h (List.not_mem_nil i)
    · simpa [chatLoop] using h
  | cons id rest ih =>
    intro s h
    cases hc : pyGet reg id with
    | none =>
      have hid : id ≠ i := fun he => by rw [he, hreg] at hc; cases hc
      simp only [chatLoop, hc]
      refine ih _ ?_
      rcases h with hmem | ⟨r, ts, rt, tk, hts⟩
      · rcases List.mem_cons.mp hmem with rfl | hmem
        · exact absurd rfl hid
        · exact Or.inl hmem
      · refine Or.inr ⟨r, ts, rt, tk, ?_⟩
        rw [pyGet_pyInsert_ne _ _ _ _ (fun he => hid he.symm)]
        exact hts
    | some cfg2 =>
      simp only [chatLoop, hc]
      by_cases hid : id = i
      · subst hid
        have hcfg : cfg2 = cfg := by rw [hreg] at hc; cases hc; rfl
        subst hcfg
        exact ih _ (Or.inr
          ⟨(call_openrouter_api msg cfg2.model cfg2.name (w.upstream s.calls)).2.message,
            w.clock (s.ticks + 2), round2 (w.clock (s.ticks + 1) - w.clock s.ticks),
            (call_openrouter_api msg cfg2.model cfg2.name (w.upstream s.calls)).2.tokens,
            pyGet_pyInsert_self _ _ _⟩)
      · refine ih _ ?_
        rcases h with hmem | ⟨r, ts, rt, tk, hts⟩
        · rcases List.mem_cons.mp hmem with rfl | hmem
          · exact absurd rfl hid
          · exact Or.inl hmem
        · refine Or.inr ⟨r, ts, rt, tk, ?_⟩
          rw [pyGet_pyInsert_ne _ _ _ _ (fun he => hid he.symm)]
          exact hts

theorem chat_valid_eq (reg : List (String × AgentConfig)) (w : World) (d : RequestData)
    (hm : pyStrip (d.message.getD "") ≠ "") (ha : d.agents.getD [] ≠ []) :
    chat reg w (some d) =
      (reg, chatSuccess reg w (pyStrip (d.message.getD "")) (d.agents.getD [])) := by
  simp only [chat]
  rw [if_neg hm, if_neg ha]

theorem chatSuccess_body (reg : List (String × AgentConfig)) (w : World)
    (message : String) (agent_ids : List String) :
    (chatSuccess reg w message agent_ids).body =
      mkEnvelope (chatLoop reg w message agent_ids ⟨0, 1, [], []⟩).responses agent_ids
        (w.clock (chatLoop reg w message agent_ids ⟨0, 1, [], []⟩).ticks - w.clock 0)
        (w.clock ((chatLoop reg w message agent_ids ⟨0, 1, [], []⟩).ticks + 1)) w.nowIso := rfl

theorem mkEnvelope_responses (rs : List (String × Json)) (agent_ids : List String)
    (total sid : ℚ) (nowIso : String) :
    (mkEnvelope rs agent_ids total sid nowIso).look "responses" = some (.obj rs) := rfl

theorem mkEnvelope_total_agents (rs : List (String × Json)) (agent_ids : List String)
    (total sid : ℚ) (nowIso : String) :
    ((mkEnvelope rs agent_ids total sid nowIso).look "metadata").bind
        (fun m => m.look "total_agents") = some (.num agent_ids.length) := rfl

theorem mkEnvelope_successful (rs : List (String × Json)) (agent_ids : List String)
    (total sid : ℚ) (nowIso : String) :
    ((mkEnvelope rs agent_ids total sid nowIso).look "metadata").bind
        (fun m => m.look "successful_responses") = some (.num rs.length) := rfl

theorem mkEnvelope_total_time (rs : List (String × Json)) (agent_ids : List String)
    (total sid : ℚ) (nowIso : String) :
    ((mkEnvelope rs agent_ids total sid nowIso).look "metadata").bind
        (fun m => m.look "total_time") = some (.num (round2 total)) := rfl

theorem mkEnvelope_avg (rs : List (String × Json)) (agent_ids : List String)
    (total sid : ℚ) (nowIso : String) (h : agent_ids ≠ []) :
    ((mkEnvelope rs agent_ids total sid nowIso).look "metadata").bind
        (fun m => m.look "average_response_time") =
      some (.num (round2 (total / agent_ids.length))) := by
  have hr : ((mkEnvelope rs agent_ids total sid nowIso).look "metadata").bind
      (fun m => m.look "average_response_time") =
      some (if agent_ids = [] then Json.num 0
        else .num (round2 (total / agent_ids.length))) := rfl
  rw [hr, if_neg h]

theorem succOutcome_status (cfg : AgentConfig) (resp : Json) (ts rt : ℚ) (tok : Json) :
    (succOutcome cfg resp ts rt tok).look "status" = some (.str "success") := rfl

theorem chatLoop_single_known (reg : List (String × AgentConfig)) (w : World) (m i : String)
    (cfg : AgentConfig) (s : LoopState) (hreg : pyGet reg i = some cfg) :
    chatLoop reg w m [i] s =
      { calls := s.calls + 1, ticks := s.ticks + 3,
        responses := pyInsert s.responses i (succOutcome cfg
          (call_openrouter_api m cfg.model cfg.name (w.upstream s.calls)).2.message
          (w.clock (s.ticks + 2)) (round2 (w.clock (s.ticks + 1) - w.clock s.ticks))
          (call_openrouter_api m cfg.model cfg.name (w.upstream s.calls)).2.tokens),
        sent := s.sent ++ [(call_openrouter_api m cfg.model cfg.name (w.upstream s.calls)).1] } := by
  simp only [chatLoop, hreg]

theorem specChoicesPath_absent (result : List (String × Json))
    (h : pyGet result "choices" = none) : specChoicesPath result = none := by
  unfold specChoicesPath
  rw [h]

theorem specChoicesPath_falsy (result : List (String × Json)) (c : Json)
    (hc : pyGet result "choices" = some c) (ht : c.truthy = false) :
    specChoicesPath result = none := by
  unfold specChoicesPath
  rw [hc]
  cases c with
  | arr l =>
    cases l with
    | nil => rfl
    | cons x xs =>
      exact absurd ht (by simp [Json.truthy])
  | str s => rfl
  | num q => rfl
  | bool b => rfl
  | null => rfl
  | obj l => rfl

theorem extractFallback_toOption (a : String) (result : List (String × Json))
    (h : specChoicesPath result = none) :
    (extractFallback a result).toOption = specOrderedExtract result := by
  unfold extractFallback specOrderedExtract
  rw [h]
  cases pyGet result "output" with
  | some v => rfl
  | none =>
  cases pyGet result "completion" with
  | some v => rfl
  | none =>
  cases pyGet result "text" with
  | some v => rfl
  | none =>
  cases pyGet result "answer" with
  | some v => rfl
  | none =>
  cases pyGet result "result" with
  | some v => rfl
  | none =>
  cases firstStrField result with
  | some v => rfl
  | none =>
  cases firstNestedStrField result with
  | some v => rfl
  | none => rfl

theorem call_snd (message model agent_name : String) (up : UpstreamOutcome) :
    (call_openrouter_api message model agent_name up).2 = handleUpstream model agent_name up := rfl

theorem handleUpstream_non200 (model agent_name : String) (statusCode : Nat)
    (body : Except String (List (String × Json))) (h : ¬ statusCode = 200) :
    handleUpstream model agent_name (.response statusCode body) =
      degradedResult agent_name model ("got HTTP error: " ++ toString statusCode) := by
  simp only [handleUpstream]
  rw [if_neg h]

theorem handleUpstream_extract_error (model agent_name : String)
    (result : List (String × Json)) (exc : PyExc)
    (hex : extract_message_content agent_name result = .error exc) :
    handleUpstream model agent_name (.response 200 (.ok result)) =
      degradedResult agent_name model ("exception: " ++ excStr exc) := by
  simp only [handleUpstream, hex, if_pos]

theorem succOutcome_response (cfg : AgentConfig) (resp : Json) (ts rt : ℚ) (tok : Json) :
    (succOutcome cfg resp ts rt tok).look "response" = some resp := rfl

theorem chatSuccess_single_known (reg : List (String × AgentConfig)) (w : World)
    (m i : String) (cfg : AgentConfig) (hreg : pyGet reg i = some cfg) :
    (chatSuccess reg w m [i]).body.look "responses" =
      some (.obj [(i, succOutcome cfg
        (call_openrouter_api m cfg.model cfg.name (w.upstream 0)).2.message
        (w.clock 3) (round2 (w.clock 2 - w.clock 1))
        (call_openrouter_api m cfg.model cfg.name (w.upstream 0)).2.tokens)]) := by
  rw [chatSuccess_body, chatLoop_single_known reg w m i cfg ⟨0, 1, [], []⟩ hreg]
  rfl

/-- C1: for every structurally valid chat request (non-empty trimmed
message, non-empty agent list), the `responses` object of the returned
envelope has no duplicate keys, its key set is exactly the set of
requested agent ids (unknown ids included, never omitted), and when the
requested ids are pairwise distinct it has exactly as many entries as
requested ids; a duplicated id therefore still yields a single entry. -/
theorem chat_responses_entry_per_agent (w : World) (d : RequestData)
    (hm : pyStrip (d.message.getD "") ≠ "") (ha : d.agents.getD [] ≠ []) :
    ∃ rs, ((chat AGENTS w (some d)).2.body).look "responses" = some (.obj rs) ∧
      (keysOf rs).Nodup ∧
      (∀ x, x ∈ keysOf rs ↔ x ∈ d.agents.getD []) ∧
      ((d.agents.getD []).Nodup → rs.length = (d.agents.getD []).length) := by
  rw [chat_valid_eq AGENTS w d hm ha]
  refine ⟨(chatLoop AGENTS w (pyStrip (d.message.getD "")) (d.agents.getD [])
    ⟨0, 1, [], []⟩).responses, rfl, ?_, ?_, ?_⟩
  · exact chatLoop_keys_nodup AGENTS w _ _ _ (by simp [keysOf])
  · intro x
    rw [chatLoop_mem_keys]
    simp [keysOf]
  · intro hnd
    rw [chatLoop_length_nodup AGENTS w _ _ _ hnd (by simp [keysOf])]
    simp

/-- Closed instance of C1 at a concrete world and request. -/
theorem chat_responses_entry_per_agent_inst :
    ∃ rs, ((chat AGENTS Wex (some dEx)).2.body).look "responses" = some (.obj rs) ∧
      (keysOf rs).Nodup ∧
      (∀ x, x ∈ keysOf rs ↔ x ∈ dEx.agents.getD []) ∧
      ((dEx.agents.getD []).Nodup → rs.length = (dEx.agents.getD []).length) :=
  chat_responses_entry_per_agent Wex dEx (by decide) (by decide)

/-- C2: for every requested agent id absent from the registry, the handler
records an error-status outcome whose error text mentions the unknown
agent, keeps processing the remaining ids (every requested id still gets
an entry), and the batch is returned with HTTP status 200. -/
theorem chat_unknown_agent_error_outcome (w : World) (d : RequestData)
    (hm : pyStrip (d.message.getD "") ≠ "") (ha : d.agents.getD [] ≠ [])
    (i : String) (hi : i ∈ d.agents.getD []) (hu : pyGet AGENTS i = none) :
    (chat AGENTS w (some d)).2.status = 200 ∧
    ∃ rs, ((chat AGENTS w (some d)).2.body).look "responses" = some (.obj rs) ∧
      (∃ ts, pyGet rs i = some (.obj
        [("status", .str "error"),
         ("error", .str ("Unknown agent: " ++ i)),
         ("timestamp", .num ts)])) ∧
      (∀ j ∈ d.agents.getD [], j ∈ keysOf rs) := by
  rw [chat_valid_eq AGENTS w d hm ha]
  refine ⟨rfl, (chatLoop AGENTS w (pyStrip (d.message.getD "")) (d.agents.getD [])
    ⟨0, 1, [], []⟩).responses, rfl, ?_, ?_⟩
  · obtain ⟨ts, hts⟩ := chatLoop_lookup_unknown AGENTS w (pyStrip (d.message.getD "")) i hu
      (d.agents.getD []) ⟨0, 1, [], []⟩ (Or.inl hi)
    exact ⟨ts, hts⟩
  · intro j hj
    rw [chatLoop_mem_keys]
    exact Or.inr hj

/-- Closed instance of C2 at a concrete world and request. -/
theorem chat_unknown_agent_error_outcome_inst :
    (chat AGENTS Wex (some dEx)).2.status = 200 ∧
    ∃ rs, ((chat AGENTS Wex (some dEx)).2.body).look "responses" = some (.obj rs) ∧
      (∃ ts, pyGet rs "nosuch" = some (.obj
        [("status", .str "error"),
         ("error", .str ("Unknown agent: " ++ "nosuch")),
         ("timestamp", .num ts)])) ∧
      (∀ j ∈ dEx.agents.getD [], j ∈ keysOf rs) :=
  chat_unknown_agent_error_outcome Wex dEx (by decide) (by decide) "nosuch" (by decide) rfl

/-- C3: a non-2xx upstream status and a transport exception both make the
adapter return (not raise) a result with `success=True`, a text embedding
the status code (or exception text) together with the agent name and the
model identifier, and zero tokens; and the per-agent outcome the handler
builds from an adapter result has status `"success"`. -/
theorem adapter_degrades_failures :
    (∀ (message model agent_name : String) (statusCode : Nat)
        (body : Except String (List (String × Json))),
        statusCode < 200 ∨ 300 ≤ statusCode →
        (call_openrouter_api message model agent_name (.response statusCode body)).2 =
          degradedResult agent_name model ("got HTTP error: " ++ toString statusCode) ∧
        (call_openrouter_api message model agent_name (.response statusCode body)).2.success
          = true ∧
        (call_openrouter_api message model agent_name (.response statusCode body)).2.tokens
          = .num 0) ∧
    (∀ message model agent_name e : String,
        (call_openrouter_api message model agent_name (.transportExc e)).2 =
          degradedResult agent_name model ("exception: " ++ e) ∧
        (call_openrouter_api message model agent_name (.transportExc e)).2.success = true ∧
        (call_openrouter_api message model agent_name (.transportExc e)).2.tokens = .num 0) ∧
    (∀ (w : World) (d : RequestData),
        pyStrip (d.message.getD "") ≠ "" → d.agents.getD [] ≠ [] →
        ∀ i cfg, i ∈ d.agents.getD [] → pyGet AGENTS i = some cfg →
        ∃ rs o, ((chat AGENTS w (some d)).2.body).look "responses" = some (.obj rs) ∧
          pyGet rs i = some o ∧ o.look "status" = some (.str "success")) := by
  refine ⟨?_, ?_, ?_⟩
  · intro message model agent_name statusCode body h
    have h200 : ¬ statusCode = 200 := by omega
    rw [call_snd, handleUpstream_non200 _ _ _ _ h200]
    exact ⟨rfl, rfl, rfl⟩
  · intro message model agent_name e
    exact ⟨rfl, rfl, rfl⟩
  · intro w d hm ha i cfg hi hreg
    rw [chat_valid_eq AGENTS w d hm ha]
    obtain ⟨r, ts, rt, tk, hv⟩ := chatLoop_lookup_known AGENTS w
      (pyStrip (d.message.getD "")) i cfg hreg (d.agents.getD []) ⟨0, 1, [], []⟩ (Or.inl hi)
    exact ⟨_, _, rfl, hv, succOutcome_status _ _ _ _ _⟩

/-- Closed instance of C3 at concrete adapter calls and a concrete request. -/
theorem adapter_degrades_failures_inst :
    ((call_openrouter_api "m" "mod" "ag" (.response 503 (.error "x"))).2 =
        degradedResult "ag" "mod" ("got HTTP error: " ++ toString 503) ∧
      (call_openrouter_api "m" "mod" "ag" (.response 503 (.error "x"))).2.success = true ∧
      (call_openrouter_api "m" "mod" "ag" (.response 503 (.error "x"))).2.tokens = .num 0) ∧
    ((call_openrouter_api "m" "mod" "ag" (.transportExc "boom")).2 =
        degradedResult "ag" "mod" ("exception: " ++ "boom") ∧
      (call_openrouter_api "m" "mod" "ag" (.transportExc "boom")).2.success = true ∧
      (call_openrouter_api "m" "mod" "ag" (.transportExc "boom")).2.tokens = .num 0) ∧
    (∃ rs o, ((chat AGENTS Wex (some dEx)).2.body).look "responses" = some (.obj rs) ∧
      pyGet rs "claude" = some o ∧ o.look "status" = some (.str "success")) :=
  ⟨adapter_degrades_failures.1 "m" "mod" "ag" 503 (.error "x") (by omega),
   adapter_degrades_failures.2.1 "m" "mod" "ag" "boom",
   adapter_degrades_failures.2.2 Wex dEx (by decide) (by decide) "claude" claudeCfg
     (by decide) rfl⟩

/-- C6: with a JSON body present, the handler fails fast exactly on an
empty-after-strip message or an empty agent list — returning HTTP 400,
a `success=False` structural error body, and performing zero upstream
calls — and otherwise returns HTTP 200. -/
theorem chat_fails_fast (w : World) (d : RequestData) :
    ((pyStrip (d.message.getD "") = "" ∨ d.agents.getD [] = []) →
      (chat AGENTS w (some d)).2.status = 400 ∧
      (chat AGENTS w (some d)).2.sent = [] ∧
      ((chat AGENTS w (some d)).2.body).look "success" = some (.bool false)) ∧
    (pyStrip (d.message.getD "") ≠ "" ∧ d.agents.getD [] ≠ [] →
      (chat AGENTS w (some d)).2.status = 200) := by
  constructor
  · intro h
    by_cases hm : pyStrip (d.message.getD "") = ""
    · simp only [chat]; rw [if_pos hm]; exact ⟨rfl, rfl, rfl⟩
    · have ha : d.agents.getD [] = [] := by
        rcases h with h | h
        · exact absurd h hm
        · exact h
      simp only [chat]; rw [if_neg hm, if_pos ha]; exact ⟨rfl, rfl, rfl⟩
  · rintro ⟨hm, ha⟩
    rw [chat_valid_eq AGENTS w d hm ha]
    rfl

/-- Closed instance of C6: an all-whitespace message is rejected with 400
and no upstream call; a valid request passes with 200. -/
theorem chat_fails_fast_inst :
    ((chat AGENTS Wex (some ⟨some " ", some ["claude"]⟩)).2.status = 400 ∧
     (chat AGENTS Wex (some ⟨some " ", some ["claude"]⟩)).2.sent = [] ∧
     ((chat AGENTS Wex (some ⟨some " ", some ["claude"]⟩)).2.body).look "success" =
       some (.bool false)) ∧
    (chat AGENTS Wex (some dEx)).2.status = 200 :=
  ⟨(chat_fails_fast Wex ⟨some " ", some ["claude"]⟩).1 (Or.inl (by decide)),
   (chat_fails_fast Wex dEx).2 ⟨by decide, by decide⟩⟩

/-- C7: in every returned envelope, `metadata.total_agents` is the length
of the requested agent list (which is positive), and the rounded
`average_response_time` is within 1/100 of `total_time` divided by
`total_agents`. -/
theorem chat_metadata_average (w : World) (d : RequestData)
    (hm : pyStrip (d.message.getD "") ≠ "") (ha : d.agents.getD [] ≠ []) :
    ∃ t a : ℚ,
      (((chat AGENTS w (some d)).2.body).look "metadata").bind
        (fun m => m.look "total_time") = some (.num t) ∧
      (((chat AGENTS w (some d)).2.body).look "metadata").bind
        (fun m => m.look "average_response_time") = some (.num a) ∧
      (((chat AGENTS w (some d)).2.body).look "metadata").bind
        (fun m => m.look "total_agents") = some (.num (d.agents.getD []).length) ∧
      0 < (d.agents.getD []).length ∧
      |a - t / ((d.agents.getD []).length : ℚ)| ≤ 1 / 100 := by
  rw [chat_valid_eq AGENTS w d hm ha]
  refine ⟨_, _, rfl, mkEnvelope_avg _ _ _ _ _ ha, rfl, List.length_pos.mpr ha, ?_⟩
  exact round2_div_close _ _ (List.length_pos.mpr ha)

/-- Closed instance of C7 at a concrete world and request. -/
theorem chat_metadata_average_inst :
    ∃ t a : ℚ,
      (((chat AGENTS Wex (some dEx)).2.body).look "metadata").bind
        (fun m => m.look "total_time") = some (.num t) ∧
      (((chat AGENTS Wex (some dEx)).2.body).look "metadata").bind
        (fun m => m.look "average_response_time") = some (.num a) ∧
      (((chat AGENTS Wex (some dEx)).2.body).look "metadata").bind
        (fun m => m.look "total_agents") = some (.num (dEx.agents.getD []).length) ∧
      0 < (dEx.agents.getD []).length ∧
      |a - t / ((dEx.agents.getD []).length : ℚ)| ≤ 1 / 100 :=
  chat_metadata_average Wex dEx (by decide) (by decide)

/-- C8: the upstream request body depends only on the model identifier:
models containing `"gemini"` get the content-generation shape (and no
`messages` array), every other model gets the chat-completions body with
`max_tokens` 2000 and `temperature` 0.7. -/
theorem request_body_by_model :
    (∀ message model : String, pyInStr "gemini" model = true →
      buildRequestBody message model =
        .obj [("contents", .arr [.obj [("parts", .arr [.obj [("text", .str message)]])]])] ∧
      (buildRequestBody message model).look "messages" = none) ∧
    (∀ message model : String, pyInStr "gemini" model = false →
      buildRequestBody message model =
        .obj [("model", .str model),
              ("messages", .arr [.obj [("role", .str "user"), ("content", .str message)]]),
              ("max_tokens", .num 2000),
              ("temperature", .num (7 / 10))]) := by
  constructor
  · intro message model h
    unfold buildRequestBody
    rw [if_pos h]
    exact ⟨rfl, rfl⟩
  · intro message model h
    unfold buildRequestBody
    rw [if_neg (by simp [h])]

/-- Closed instance of C8 on a Gemini model and a non-Gemini model. -/
theorem request_body_by_model_inst :
    (buildRequestBody "hi" "google/gemini-1.5-flash" =
        .obj [("contents", .arr [.obj [("parts", .arr [.obj [("text", .str "hi")]])]])] ∧
      (buildRequestBody "hi" "google/gemini-1.5-flash").look "messages" = none) ∧
    buildRequestBody "hi" "openai/gpt-4o" =
      .obj [("model", .str "openai/gpt-4o"),
            ("messages", .arr [.obj [("role", .str "user"), ("content", .str "hi")]]),
            ("max_tokens", .num 2000),
            ("temperature", .num (7 / 10))] :=
  ⟨request_body_by_model.1 "hi" "google/gemini-1.5-flash" (by decide),
   request_body_by_model.2 "hi" "openai/gpt-4o" (by decide)⟩

/-- C9: handling a chat request never mutates the agent registry: the
registry the handler threads through comes back unchanged on every path,
for every request and every upstream behaviour. -/
theorem chat_preserves_registry (w : World) (data : Option RequestData) :
    (chat AGENTS w data).1 = AGENTS := by
  cases data with
  | none => rfl
  | some d =>
    by_cases h1 : pyStrip (d.message.getD "") = ""
    · simp [chat, h1]
    · by_cases h2 : d.agents.getD [] = [] <;> simp [chat, h1, h2]

/-- C10: `metadata.successful_responses` equals the number of entries of
the `responses` map; that number is at most `total_agents`, and every
requested id — known or unknown — contributes its entry, so error
outcomes are counted too. -/
theorem chat_successful_responses_counts_entries (w : World) (d : RequestData)
    (hm : pyStrip (d.message.getD "") ≠ "") (ha : d.agents.getD [] ≠ []) :
    ∃ rs, ((chat AGENTS w (some d)).2.body).look "responses" = some (.obj rs) ∧
      (((chat AGENTS w (some d)).2.body).look "metadata").bind
        (fun m => m.look "successful_responses") = some (.num rs.length) ∧
      (((chat AGENTS w (some d)).2.body).look "metadata").bind
        (fun m => m.look "total_agents") = some (.num (d.agents.getD []).length) ∧
      rs.length ≤ (d.agents.getD []).length ∧
      (∀ i ∈ d.agents.getD [], i ∈ keysOf rs) := by
  rw [chat_valid_eq AGENTS w d hm ha]
  refine ⟨(chatLoop AGENTS w (pyStrip (d.message.getD "")) (d.agents.getD [])
    ⟨0, 1, [], []⟩).responses, rfl, rfl, rfl, ?_, ?_⟩
  · have h := chatLoop_length_le AGENTS w (pyStrip (d.message.getD ""))
      (d.agents.getD []) ⟨0, 1, [], []⟩
    simpa using h
  · intro i hi
    rw [chatLoop_mem_keys]
    exact Or.inr hi

/-- Closed instance of C10 at a concrete world and request. -/
theorem chat_successful_responses_counts_entries_inst :
    ∃ rs, ((chat AGENTS Wex (some dEx)).2.body).look "responses" = some (.obj rs) ∧
      (((chat AGENTS Wex (some dEx)).2.body).look "metadata").bind
        (fun m => m.look "successful_responses") = some (.num rs.length) ∧
      (((chat AGENTS Wex (some dEx)).2.body).look "metadata").bind
        (fun m => m.look "total_agents") = some (.num (dEx.agents.getD []).length) ∧
      rs.length ≤ (dEx.agents.getD []).length ∧
      (∀ i ∈ dEx.agents.getD [], i ∈ keysOf rs) :=
  chat_successful_responses_counts_entries Wex dEx (by decide) (by decide)

/-- C5 counterexample: on `\x7b"choices": [\x7b\x7d], "output": "hi"\x7d` the
documented order (claim) extracts `"hi"` via the `output` key, but the
extractor as implemented commits to the `choices` path and raises a
`KeyError` on the missing `message` field instead of falling through. -/
theorem extractor_order_cex :
    specOrderedExtract [("choices", Json.arr [Json.obj []]), ("output", Json.str "hi")] =
      some (Json.str "hi") ∧
    extract_message_content "agent"
        [("choices", Json.arr [Json.obj []]), ("output", Json.str "hi")] =
      Except.error (PyExc.keyError "message") :=
  ⟨rfl, rfl⟩

/-- C5 amended: the extractor follows the documented order except that a
present, truthy `choices` value commits it to the
`choices[0].message.content` subscript chain, raising when that chain
fails; the four documented concrete examples all hold. -/
theorem extractor_amended_order :
    (∀ (agent_name : String) (result : List (String × Json)),
      (extract_message_content agent_name result).toOption = specAmendedExtract result) ∧
    extract_message_content "agent"
        [("choices", .arr [.obj [("message", .obj [("content", .str "hi")])]])] =
      .ok (.str "hi") ∧
    extract_message_content "agent" [("output", .str "hi")] = .ok (.str "hi") ∧
    extract_message_content "agent" [("foo", .obj [("bar", .str "hi")])] = .ok (.str "hi") ∧
    extract_message_content "agent" [("foo", .num 42)] =
      .error (.unknownFormat "agent" [("foo", .num 42)]) := by
  refine ⟨?_, rfl, rfl, rfl, rfl⟩
  intro agent_name result
  unfold extract_message_content specAmendedExtract
  cases h : pyGet result "choices" with
  | none => exact extractFallback_toOption _ _ (specChoicesPath_absent _ h)
  | some c =>
    dsimp only
    cases ht : c.truthy with
    | false =>
      simp only [Bool.false_eq_true, if_false]
      exact extractFallback_toOption _ _ (specChoicesPath_falsy _ _ h ht)
    | true =>
      rw [if_pos rfl, if_pos rfl]
      cases pyIndex0 c with
      | error e => rfl
      | ok x =>
        dsimp only
        cases pySubscript x "message" with
        | error e => rfl
        | ok m => rfl

/-- C4 counterexample: with an upstream 200 body that has no extractable
content (`\x7b"foo": 42\x7d`), the per-agent outcome carries status
`"success"`, not the claimed status `"error"`. -/
theorem extract_failure_status_cex :
    ((((chat AGENTS Wfoo (some ⟨some "hi", some ["claude"]⟩)).2.body).look "responses").bind
        (fun r => r.look "claude")).bind (fun o => o.look "status") =
      some (Json.str "success") ∧
    ((((chat AGENTS Wfoo (some ⟨some "hi", some ["claude"]⟩)).2.body).look "responses").bind
        (fun r => r.look "claude")).bind (fun o => o.look "status") ≠
      some (Json.str "error") := by
  refine ⟨rfl, fun hc => ?_⟩
  have hc2 : some (Json.str "success") = some (Json.str "error") := hc
  have h2 : "success" = "error" := Json.str.inj (Option.some.inj hc2)
  exact absurd h2 (by decide)

/-- C4 amended: when the extractor finds no extractable text in a 2xx
body, the resulting per-agent outcome has status `"success"` (the uniform
degraded policy of the adapter), its response text embeds the raw
upstream body inside the diagnostic exception message, and the failure is
never propagated as a request-level fault — the envelope still comes back
with HTTP 200. -/
theorem extract_failure_degraded_success (w : World) (msg i : String) (cfg : AgentConfig)
    (b : List (String × Json)) (hm : pyStrip msg ≠ "")
    (hreg : pyGet AGENTS i = some cfg)
    (hup : w.upstream 0 = .response 200 (.ok b))
    (hex : extract_message_content cfg.name b = .error (.unknownFormat cfg.name b)) :
    (chat AGENTS w (some ⟨some msg, some [i]⟩)).2.status = 200 ∧
    ∃ rs o, ((chat AGENTS w (some ⟨some msg, some [i]⟩)).2.body).look "responses" =
        some (.obj rs) ∧
      pyGet rs i = some o ∧
      o.look "status" = some (.str "success") ∧
      ∃ t, o.look "response" = some (.str t) ∧
        ∃ pre post, t = pre ++ (pyRepr (.obj b) ++ post) := by
  have hm' : pyStrip ((⟨some msg, some [i]⟩ : RequestData).message.getD "") ≠ "" := hm
  have ha : ((⟨some msg, some [i]⟩ : RequestData).agents.getD []) ≠ [] := by simp
  rw [chat_valid_eq AGENTS w _ hm' ha]
  rw [show ((⟨some msg, some [i]⟩ : RequestData).agents.getD []) = [i] from rfl]
  refine ⟨rfl, ?_⟩
  have hlook := chatSuccess_single_known AGENTS w
    (pyStrip ((⟨some msg, some [i]⟩ : RequestData).message.getD "")) i cfg hreg
  refine ⟨[(i, succOutcome cfg
      (call_openrouter_api (pyStrip ((⟨some msg, some [i]⟩ : RequestData).message.getD ""))
        cfg.model cfg.name (w.upstream 0)).2.message
      (w.clock 3) (round2 (w.clock 2 - w.clock 1))
      (call_openrouter_api (pyStrip ((⟨some msg, some [i]⟩ : RequestData).message.getD ""))
        cfg.model cfg.name (w.upstream 0)).2.tokens)],
    succOutcome cfg
      (call_openrouter_api (pyStrip ((⟨some msg, some [i]⟩ : RequestData).message.getD ""))
        cfg.model cfg.name (w.upstream 0)).2.message
      (w.clock 3) (round2 (w.clock 2 - w.clock 1))
      (call_openrouter_api (pyStrip ((⟨some msg, some [i]⟩ : RequestData).message.getD ""))
        cfg.model cfg.name (w.upstream 0)).2.tokens,
    hlook, ?_, ?_, ?_⟩
  · simp [pyGet]
  · exact succOutcome_status _ _ _ _ _
  · rw [succOutcome_response]
    have hres : (call_openrouter_api
        (pyStrip ((⟨some msg, some [i]⟩ : RequestData).message.getD ""))
        cfg.model cfg.name (w.upstream 0)).2 =
        degradedResult cfg.name cfg.model
          ("exception: " ++ excStr (.unknownFormat cfg.name b)) := by
      rw [call_snd, hup]
      exact handleUpstream_extract_error _ _ _ _ hex
    rw [hres]
    refine ⟨_, rfl, ?_⟩
    refine ⟨"[" ++ cfg.name ++ " on " ++ cfg.model ++ " " ++ "exception: " ++
      "[ERROR] Unknown format from agent \x27" ++ cfg.name ++ "\x27: ", "]", ?_⟩
    simp only [excStr, strAppend_assoc]

/-- Closed instance of the amended C4 at a concrete world and request. -/
theorem extract_failure_degraded_success_inst :
    (chat AGENTS Wfoo (some ⟨some "hi", some ["claude"]⟩)).2.status = 200 ∧
    ∃ rs o, ((chat AGENTS Wfoo (some ⟨some "hi", some ["claude"]⟩)).2.body).look
        "responses" = some (.obj rs) ∧
      pyGet rs "claude" = some o ∧
      o.look "status" = some (.str "success") ∧
      ∃ t, o.look "response" = some (.str t) ∧
        ∃ pre post, t = pre ++ (pyRepr (.obj [("foo", Json.num 42)]) ++ post) :=
  extract_failure_degraded_success Wfoo "hi" "claude" claudeCfg [("foo", Json.num 42)]
    (by decide) rfl rfl rfl

end PromptLink
